import Mathlib

/-!
Shallow embedding of the Workflow Orchestration & Scheduling core of the
automated-youtube-sora2-ai-agent-workflow repository.

The embedded modules are:
  - src/modules/logger.py   (WorkflowLogger: upload tracker = Run Ledger)
  - src/modules/scheduler.py (WorkflowScheduler: time matching, next-run scan)
  - src/modules/workflow_manager.py (WorkflowManager: the five-stage pipeline)

Python dicts keyed by strings are embedded as insertion-ordered association
lists with overwrite-in-place assignment (dictInsert), matching CPython dict
semantics for the operations used by the source. External adapters (Gemini,
Sora, KLing, YouTube) and the filesystem are parameters of an environment
record: each adapter call either returns a value or raises, embedded as
Except String. A raised exception is an Except.error carrying the message.
-/

namespace Sora2Workflow

/-- Video metadata produced by step 1 (gemini_agent.generate_video_metadata):
a dict with title, description and tags. -/
structure Metadata where
  title : String
  description : String
  tags : List String
  deriving Repr, DecidableEq

/-- One entry of logger.py upload_tracker (a PublishRecord): the dict written
by WorkflowLogger.mark_uploaded, fields in source order. -/
structure UploadRecord where
  uploaded : Bool
  video_id : String
  video_title : String
  day_of_week : String
  timestamp : String
  deriving Repr, DecidableEq

/-- Python dict lookup d[k] (keys are unique, first match). -/
def dictLookup {α : Type} : List (String × α) → String → Option α
  | [], _ => none
  | (k', v) :: rest, k => if k' = k then some v else dictLookup rest k

/-- Python dict assignment d[k] = v: overwrite in place if the key exists,
otherwise append (CPython insertion order). -/
def dictInsert {α : Type} : List (String × α) → String → α → List (String × α)
  | [], k, v => [(k, v)]
  | (k', v') :: rest, k, v =>
      if k' = k then (k, v) :: rest else (k', v') :: dictInsert rest k v

/-- Python membership test k in d. -/
def dictMem {α : Type} (d : List (String × α)) (k : String) : Bool :=
  (dictLookup d k).isSome

/-- logger.py WorkflowLogger.has_uploaded_today: false when the current
weekday differs from the given day_of_week; otherwise look up today in the
upload tracker and read its uploaded flag (default false). The wall clock
values today and current_day are explicit parameters. -/
def has_uploaded_today (upload_tracker : List (String × UploadRecord))
    (today current_day day_of_week : String) : Bool :=
  if current_day ≠ day_of_week then false
  else
    match dictLookup upload_tracker today with
    | some entry => entry.uploaded
    | none => false

/-- logger.py WorkflowLogger.mark_uploaded: write (overwrite-by-date) the
record for today with uploaded = true. The persistence to disk
(save_upload_tracker) swallows its own errors and never changes the
in-memory dict, so only the in-memory update is modelled. -/
def mark_uploaded (upload_tracker : List (String × UploadRecord))
    (today day_of_week timestamp video_id video_title : String) :
    List (String × UploadRecord) :=
  dictInsert upload_tracker today
    { uploaded := true, video_id := video_id, video_title := video_title,
      day_of_week := day_of_week, timestamp := timestamp }

set_option linter.unusedVariables false in
/-- logger.py WorkflowLogger.get_upload_history(days = 30): the source body is
exactly return self.upload_tracker — the days parameter is never read. -/
def get_upload_history (upload_tracker : List (String × UploadRecord))
    (days : Nat) : List (String × UploadRecord) :=
  upload_tracker

/-- ASCII whitespace as stripped by Python int() around a numeric literal. -/
def pyIsSpace (c : Char) : Bool :=
  c = ' ' ∨ c = '\t' ∨ c = '\n' ∨ c = '\r' ∨ c = '\x0b' ∨ c = '\x0c'

/-- Drop leading whitespace characters. -/
def dropLeadingSpace : List Char → List Char
  | [] => []
  | c :: cs => if pyIsSpace c then dropLeadingSpace cs else c :: cs

/-- Strip whitespace from both ends, as Python str.strip(). -/
def pyStrip (l : List Char) : List Char :=
  dropLeadingSpace ((dropLeadingSpace l.reverse).reverse)

/-- Accumulate a nonempty run of decimal digits into a number; any
non-digit character, or an empty run, yields none. -/
def decDigits? : List Char → Option Nat → Option Nat
  | [], acc => acc
  | c :: cs, acc =>
      if c.isDigit then decDigits? cs (some ((acc.getD 0) * 10 + (c.toNat - 48)))
      else none

/-- Python int(s) on a string: optional surrounding whitespace, optional sign,
then decimal digits; anything else raises ValueError (embedded as none). -/
def pyInt? (s : String) : Option Int :=
  match pyStrip s.data with
  | '-' :: rest => (decDigits? rest none).map (fun n => -(n : Int))
  | '+' :: rest => (decDigits? rest none).map (fun n => (n : Int))
  | t => (decDigits? t none).map (fun n => (n : Int))

/-- Helper of pySplit: split a character list at every separator, keeping
empty pieces, as Python str.split(sep) with a one-character sep. -/
def pySplitAux (sep : Char) : List Char → List Char → List String
  | [], acc => [String.mk acc.reverse]
  | c :: cs, acc =>
      if c = sep then String.mk acc.reverse :: pySplitAux sep cs []
      else pySplitAux sep cs (c :: acc)

/-- Python str.split(sep) with a one-character separator: empty pieces are
kept, and a string with no separator yields the one-element list. -/
def pySplit (s : String) (sep : Char) : List String :=
  pySplitAux sep s.data []

/-- Python list indexing l[i]: raises IndexError when out of range. -/
def pyIndex {α : Type} (l : List α) (i : Nat) : Except String α :=
  match l[i]? with
  | some x => Except.ok x
  | none => Except.error "IndexError: list index out of range"

/-- Python int(s) as a raising operation. -/
def pyIntE (s : String) : Except String Int :=
  match pyInt? s with
  | some n => Except.ok n
  | none => Except.error "ValueError: invalid literal for int"

/-- The try-block body of scheduler.py WorkflowScheduler.is_time_match:
split both strings on a colon, parse hour and minute of each, and match when
the hours are equal and the absolute minute difference is at most 1. Any
IndexError or ValueError propagates as Except.error. -/
def is_time_match_body (current_time scheduled_time : String) :
    Except String Bool := do
  let curr_parts := pySplit current_time ':'
  let sched_parts := pySplit scheduled_time ':'
  let curr_hour ← pyIntE (← pyIndex curr_parts 0)
  let curr_min ← pyIntE (← pyIndex curr_parts 1)
  let sched_hour ← pyIntE (← pyIndex sched_parts 0)
  let sched_min ← pyIntE (← pyIndex sched_parts 1)
  if curr_hour = sched_hour then
    pure (decide ((curr_min - sched_min).natAbs ≤ 1))
  else
    pure false

/-- scheduler.py WorkflowScheduler.is_time_match: the try-block body with the
except handler that logs and returns False on any exception. -/
def is_time_match (current_time scheduled_time : String) : Bool :=
  match is_time_match_body current_time scheduled_time with
  | Except.ok b => b
  | Except.error _ => false

/-- scheduler.py WorkflowScheduler.parse_time: split on a colon, build
datetime.time(hour, minute); datetime.time validates hour in [0,23] and
minute in [0,59] and raises otherwise; the bare except returns None. -/
def parse_time (time_str : String) : Option (Int × Int) :=
  let parts := pySplit time_str ':'
  match parts[0]?, parts[1]? with
  | some p0, some p1 =>
    match pyInt? p0, pyInt? p1 with
    | some h, some m =>
        if 0 ≤ h ∧ h ≤ 23 ∧ 0 ≤ m ∧ m ≤ 59 then some (h, m) else none
    | _, _ => none
  | _, _ => none

/-- scheduler.py days_order list, index 0 = Monday as in datetime.weekday(). -/
def days_order : List String :=
  ["Monday", "Tuesday", "Wednesday", "Thursday", "Friday", "Saturday", "Sunday"]

/-- Structured form of the strings returned by get_next_scheduled_run: the
four textually distinct return shapes of the source function. todayAt d t
stands for the string Today (d) at t; upcoming d i t stands for
d (i days) at t. -/
inductive NextRun where
  | noScheduleConfigured : NextRun
  | todayAt : String → String → NextRun
  | upcoming : String → Nat → String → NextRun
  | noUpcomingRuns : NextRun
  deriving Repr, DecidableEq

/-- Comparison current_time < scheduled_time on datetime.time values, where
the scheduled time has second = 0 and microsecond = 0 and the current time
has nonnegative second and microsecond: it holds exactly when the current
hour is below the scheduled hour, or hours are equal and the current minute
is below the scheduled minute. -/
def time_lt (ch cm : Nat) (sh sm : Int) : Bool :=
  decide ((ch : Int) < sh ∨ ((ch : Int) = sh ∧ (cm : Int) < sm))

/-- The for-loop of scheduler.py get_next_scheduled_run over
i in range(1, 8): return the first upcoming day with a schedule entry. -/
def find_upcoming (schedule : List (String × String))
    (current_day_index : Nat) : List Nat → NextRun
  | [] => NextRun.noUpcomingRuns
  | i :: rest =>
    match dictLookup schedule (days_order.getD ((current_day_index + i) % 7) "") with
    | some scheduled_time =>
        NextRun.upcoming (days_order.getD ((current_day_index + i) % 7) "") i
          scheduled_time
    | none => find_upcoming schedule current_day_index rest

/-- scheduler.py WorkflowScheduler.get_next_scheduled_run. The wall clock is
passed explicitly: current_day_index = datetime.weekday() (0 = Monday) and
the current hour and minute. Empty schedule short-circuits; then today is
reported only when today has an entry whose parsed time is still in the
future; otherwise the next 7 days are scanned in order. -/
def get_next_scheduled_run (schedule : List (String × String))
    (current_day_index ch cm : Nat) : NextRun :=
  if schedule.isEmpty then NextRun.noScheduleConfigured
  else
    match dictLookup schedule (days_order.getD current_day_index "") with
    | some scheduled_time_str =>
      match parse_time scheduled_time_str with
      | some (sh, sm) =>
        if time_lt ch cm sh sm then
          NextRun.todayAt (days_order.getD current_day_index "") scheduled_time_str
        else find_upcoming schedule current_day_index [1, 2, 3, 4, 5, 6, 7]
      | none => find_upcoming schedule current_day_index [1, 2, 3, 4, 5, 6, 7]
    | none => find_upcoming schedule current_day_index [1, 2, 3, 4, 5, 6, 7]

/-- The environment of one WorkflowManager.run_workflow call: the settings
read through settings.get, the external adapters (each call returns a value
or raises, embedded as Except String), the filesystem (path to file size, or
none when the file does not exist), the stop flag behaviour, the wall clock,
and the in-memory upload tracker at run start. stop_from models
stop_workflow: should_stop starts false (reset at run start) and, once set,
stays set; stop_from = some k means the flag reads true from the k-th
stage-boundary check onward, stop_from = none means no stop is requested. -/
structure Env where
  gemini_api_key : String
  openai_api_key : String
  video_duration : Nat
  video_resolution : String
  upload_destination : String
  generate_video_prompt : Except String String
  generate_video_metadata : String → Except String Metadata
  verify_api_access : Bool
  generate_video : String → Nat → String → Except String String
  file_size : String → Option Nat
  remove_watermark : String → Except String String
  upload_video : String → Metadata → Bool → Except String String
  stop_from : Option Nat
  upload_tracker : List (String × UploadRecord)
  today : String
  weekday : String
  timestamp : String

/-- The value of self.should_stop at the i-th stage-boundary check of
run_workflow (i = 1 after planning, 2 after generation, 3 after watermark
removal, 4 after enhancement). -/
def should_stop_at (env : Env) (i : Nat) : Bool :=
  match env.stop_from with
  | none => false
  | some k => k ≤ i

/-- workflow_manager.py WorkflowManager._verify_video_file: false when the
file does not exist or has size 0; any other size passes. A size below
min_size = 100 * 1024 reaches the warning branch but still returns true. -/
def verify_video_file (env : Env) (video_path : String) : Bool :=
  match env.file_size video_path with
  | none => false
  | some file_size => if file_size = 0 then false else true

/-- The condition under which _verify_video_file takes its warning branch
(file exists, nonzero size, below the 100 KB minimum). -/
def verify_video_warns (env : Env) (video_path : String) : Bool :=
  match env.file_size video_path with
  | none => false
  | some file_size => if file_size = 0 then false else file_size < 100 * 1024

/-- workflow_manager.py WorkflowManager.step_ai_planning: raise when the
Gemini key is absent (falsy), otherwise call generate_video_prompt then
generate_video_metadata. The second component lists the adapter calls that
were actually made, in order. -/
def step_ai_planning (env : Env) :
    Except String (String × Metadata) × List String :=
  if env.gemini_api_key = "" then
    (Except.error "Gemini API key not configured", [])
  else
    match env.generate_video_prompt with
    | Except.error e => (Except.error e, ["generate_video_prompt"])
    | Except.ok video_prompt =>
      match env.generate_video_metadata video_prompt with
      | Except.error e =>
          (Except.error e, ["generate_video_prompt", "generate_video_metadata"])
      | Except.ok metadata =>
          (Except.ok (video_prompt, metadata),
           ["generate_video_prompt", "generate_video_metadata"])

/-- workflow_manager.py WorkflowManager.step_video_generation: raise when the
OpenAI key is absent, raise when verify_api_access fails, call the Sora
generate_video adapter with prompt, duration and resolution, then verify the
produced file and raise when verification fails. -/
def step_video_generation (env : Env) (prompt : String) :
    Except String String × List String :=
  if env.openai_api_key = "" then
    (Except.error "OpenAI API key not configured. Please add your API key in Settings.", [])
  else if env.verify_api_access = false then
    (Except.error "Cannot access Sora 2 API.", ["verify_api_access"])
  else
    match env.generate_video prompt env.video_duration env.video_resolution with
    | Except.error e => (Except.error e, ["verify_api_access", "generate_video"])
    | Except.ok video_path =>
      if verify_video_file env video_path then
        (Except.ok video_path, ["verify_api_access", "generate_video"])
      else
        (Except.error "Video verification failed. The generated file is missing or invalid.",
         ["verify_api_access", "generate_video"])

/-- workflow_manager.py WorkflowManager.step_watermark_removal: re-verify the
input file (defense in depth), call the KLing remove_watermark adapter,
verify its output, raising on any failure. -/
def step_watermark_removal (env : Env) (video_path : String) :
    Except String String × List String :=
  if verify_video_file env video_path = false then
    (Except.error "Cannot proceed with watermark removal: Input video is invalid.", [])
  else
    match env.remove_watermark video_path with
    | Except.error e => (Except.error e, ["remove_watermark"])
    | Except.ok cleaned_path =>
      if verify_video_file env cleaned_path then
        (Except.ok cleaned_path, ["remove_watermark"])
      else
        (Except.error "Watermark removal failed: Output video is invalid",
         ["remove_watermark"])

/-- workflow_manager.py WorkflowManager.step_youtube_upload: re-verify the
input file, call the upload adapter (as shorts when upload_destination is
youtube_shorts); a falsy returned id (empty string models None or empty)
raises. -/
def step_youtube_upload (env : Env) (video_path : String)
    (metadata : Metadata) : Except String String × List String :=
  if verify_video_file env video_path = false then
    (Except.error "Cannot proceed with upload: Video file is invalid.", [])
  else
    let upload_as_shorts := env.upload_destination = "youtube_shorts"
    match env.upload_video video_path metadata upload_as_shorts with
    | Except.error e => (Except.error e, ["upload_video"])
    | Except.ok video_id =>
      if video_id = "" then
        (Except.error "Failed to upload video to YouTube", ["upload_video"])
      else
        (Except.ok video_id, ["upload_video"])

/-- The observable outcome of one run_workflow call: the boolean return
value, the (step, percent, status) progress events in emission order, the
adapter calls made in order, the upload tracker after the run, and the
message logged at level ERROR by the except handler (none when no exception
was raised). -/
structure RunResult where
  success : Bool
  events : List (String × Nat × String)
  calls : List String
  upload_tracker : List (String × UploadRecord)
  error : Option String
  deriving Repr, DecidableEq

/-- workflow_manager.py WorkflowManager.run_workflow: the five stages in
order with a should_stop check after each of the first four, progress events
exactly as emitted by update_progress, mark_uploaded on full success, and
the except handler that logs the error, emits the event
(Error, 0, Error) and returns false. The placeholder enhancement step only
emits its two events and passes the cleaned video through. -/
def run_workflow (env : Env) : RunResult :=
  let ev1 := [("AI Agent Planning", 0, "Running")]
  match step_ai_planning env with
  | (Except.error e, cs1) =>
    { success := false, events := ev1 ++ [("Error", 0, "Error")], calls := cs1,
      upload_tracker := env.upload_tracker,
      error := some ("Workflow failed: " ++ e) }
  | (Except.ok (video_prompt, metadata), cs1) =>
    let ev2 := ev1 ++ [("AI Agent Planning", 100, "Completed")]
    if should_stop_at env 1 then
      { success := false, events := ev2, calls := cs1,
        upload_tracker := env.upload_tracker, error := none }
    else
      let ev3 := ev2 ++ [("Sora 2 Video Generation", 0, "Running")]
      match step_video_generation env video_prompt with
      | (Except.error e, cs2) =>
        { success := false, events := ev3 ++ [("Error", 0, "Error")],
          calls := cs1 ++ cs2, upload_tracker := env.upload_tracker,
          error := some ("Workflow failed: " ++ e) }
      | (Except.ok generated_video, cs2) =>
        let ev4 := ev3 ++ [("Sora 2 Video Generation", 100, "Completed")]
        if should_stop_at env 2 then
          { success := false, events := ev4, calls := cs1 ++ cs2,
            upload_tracker := env.upload_tracker, error := none }
        else
          let ev5 := ev4 ++ [("Watermark Removal (KLing)", 0, "Running")]
          match step_watermark_removal env generated_video with
          | (Except.error e, cs3) =>
            { success := false, events := ev5 ++ [("Error", 0, "Error")],
              calls := cs1 ++ cs2 ++ cs3, upload_tracker := env.upload_tracker,
              error := some ("Workflow failed: " ++ e) }
          | (Except.ok cleaned_video, cs3) =>
            let ev6 := ev5 ++ [("Watermark Removal (KLing)", 100, "Completed")]
            if should_stop_at env 3 then
              { success := false, events := ev6, calls := cs1 ++ cs2 ++ cs3,
                upload_tracker := env.upload_tracker, error := none }
            else
              let ev7 := ev6 ++ [("Video Enhancement", 0, "Running"),
                                 ("Video Enhancement", 100, "Completed")]
              let enhanced_video := cleaned_video
              if should_stop_at env 4 then
                { success := false, events := ev7, calls := cs1 ++ cs2 ++ cs3,
                  upload_tracker := env.upload_tracker, error := none }
              else
                let ev8 := ev7 ++ [("YouTube Upload", 0, "Running")]
                match step_youtube_upload env enhanced_video metadata with
                | (Except.error e, cs4) =>
                  { success := false, events := ev8 ++ [("Error", 0, "Error")],
                    calls := cs1 ++ cs2 ++ cs3 ++ cs4,
                    upload_tracker := env.upload_tracker,
                    error := some ("Workflow failed: " ++ e) }
                | (Except.ok video_id, cs4) =>
                  { success := true,
                    events := ev8 ++ [("YouTube Upload", 100, "Completed")],
                    calls := cs1 ++ cs2 ++ cs3 ++ cs4,
                    upload_tracker := mark_uploaded env.upload_tracker env.today
                      env.weekday env.timestamp video_id metadata.title,
                    error := none }

/-- Outcome of one scheduled trigger: either the run was skipped by the
ledger guard, or run_workflow was invoked and produced the given result. -/
inductive TriggerOutcome where
  | skipped : TriggerOutcome
  | ran : RunResult → TriggerOutcome

/-- workflow_manager.py WorkflowManager.scheduled_workflow_execution: the
callback the scheduler fires with the matched weekday; it skips the run
entirely when has_uploaded_today holds, otherwise calls run_workflow. -/
def scheduled_workflow_execution (env : Env) (day_of_week : String) :
    TriggerOutcome :=
  if has_uploaded_today env.upload_tracker env.today env.weekday day_of_week then
    TriggerOutcome.skipped
  else
    TriggerOutcome.ran (run_workflow env)

/-- A sample metadata value for concrete witness runs. -/
def sampleMeta : Metadata :=
  { title := "Sample Title", description := "Sample description", tags := ["a", "b"] }

/-- A concrete environment in which every stage succeeds: all keys present,
all adapters return valid artifacts, all files exist with size 200000 bytes,
and no stop is requested. -/
def envOk : Env :=
  { gemini_api_key := "gk", openai_api_key := "ok",
    video_duration := 30, video_resolution := "1080p",
    upload_destination := "main_channel",
    generate_video_prompt := Except.ok "a scenic prompt",
    generate_video_metadata := fun _ => Except.ok sampleMeta,
    verify_api_access := true,
    generate_video := fun _ _ _ => Except.ok "temp/generated_video.mp4",
    file_size := fun _ => some 200000,
    remove_watermark := fun _ => Except.ok "output/cleaned_video_1.mp4",
    upload_video := fun _ _ _ => Except.ok "yt-video-id-123",
    stop_from := none,
    upload_tracker := [],
    today := "2025-01-06", weekday := "Monday",
    timestamp := "2025-01-06T09:00:12" }

/-- envOk with a filesystem on which every file has size zero: the Sora
adapter reports a generated file, but the artifact is a zero-byte file. -/
def envZeroByte : Env := { envOk with file_size := fun _ => some 0 }

/-- envOk with the Gemini credential absent: the planning stage raises. -/
def envNoGemini : Env := { envOk with gemini_api_key := "" }

/-- envOk with a stop request that becomes observable at the second
stage-boundary check, i.e. between generation and post-processing. -/
def envStop2 : Env := { envOk with stop_from := some 2 }

/-- A sample ledger record dated 2025-01-01. -/
def recJan1 : UploadRecord :=
  { uploaded := true, video_id := "id-jan1", video_title := "Video one",
    day_of_week := "Wednesday", timestamp := "2025-01-01T09:00:00" }

/-- A sample ledger record dated 2025-01-02. -/
def recJan2 : UploadRecord :=
  { uploaded := true, video_id := "id-jan2", video_title := "Video two",
    day_of_week := "Thursday", timestamp := "2025-01-02T09:00:00" }

/-- An upload tracker holding records for two distinct dates. -/
def twoDayTracker : List (String × UploadRecord) :=
  [("2025-01-01", recJan1), ("2025-01-02", recJan2)]

/-! Helper lemmas about the embedded dict operations and pipeline steps. -/

/-- Looking up the key just written finds the written value. -/
theorem dictLookup_insert_self {α : Type} (t : List (String × α)) (k : String)
    (v : α) : dictLookup (dictInsert t k v) k = some v := by
  induction t with
  | nil => simp [dictInsert, dictLookup]
  | cons hd tl ih =>
    obtain ⟨k', v'⟩ := hd
    by_cases h : k' = k <;> simp [dictInsert, dictLookup, h, ih]

/-- Writing one key leaves every other key unchanged. -/
theorem dictLookup_insert_ne {α : Type} (t : List (String × α)) (k d : String)
    (v : α) (hd : d ≠ k) :
    dictLookup (dictInsert t k v) d = dictLookup t d := by
  induction t with
  | nil => simp [dictInsert, dictLookup, Ne.symm hd]
  | cons p tl ih =>
    obtain ⟨k', v'⟩ := p
    by_cases h : k' = k
    · subst h; simp [dictInsert, dictLookup, Ne.symm hd]
    · by_cases h2 : k' = d <;> simp [dictInsert, dictLookup, h, h2, hd, ih]

/-- When the upload step succeeds with id vid, vid is exactly the id the
upload adapter returned. -/
theorem step_youtube_upload_adapter_id (env : Env) (path : String)
    (m : Metadata) (vid : String) (cs : List String)
    (h : step_youtube_upload env path m = (Except.ok vid, cs)) :
    env.upload_video path m (env.upload_destination = "youtube_shorts") =
      Except.ok vid := by
  unfold step_youtube_upload at h
  by_cases hv : verify_video_file env path = false
  · rw [if_pos hv] at h
    exact absurd h (by simp)
  · rw [if_neg hv] at h
    rcases hu : env.upload_video path m (env.upload_destination = "youtube_shorts")
      with e | id
    · simp only [hu] at h
      exact absurd h (by simp)
    · simp only [hu] at h
      by_cases hid : id = ""
      · rw [if_pos hid] at h
        exact absurd h (by simp)
      · rw [if_neg hid] at h
        have hidvid : id = vid := by
          have h' := congrArg Prod.fst h
          simpa using h'
        exact congrArg Except.ok hidvid

/-- Full-success normal form of run_workflow: when all four stages succeed
and no stop is requested, the run returns true, emits the ten
Running/Completed events in order, and writes exactly the mark_uploaded
record for today. -/
theorem run_workflow_success_eq (env : Env) (p : String) (m : Metadata)
    (g c vid : String) (cs1 cs2 cs3 cs4 : List String)
    (h0 : env.stop_from = none)
    (h1 : step_ai_planning env = (Except.ok (p, m), cs1))
    (h2 : step_video_generation env p = (Except.ok g, cs2))
    (h3 : step_watermark_removal env g = (Except.ok c, cs3))
    (h4 : step_youtube_upload env c m = (Except.ok vid, cs4)) :
    run_workflow env =
      { success := true,
        events := [("AI Agent Planning", 0, "Running"),
                   ("AI Agent Planning", 100, "Completed"),
                   ("Sora 2 Video Generation", 0, "Running"),
                   ("Sora 2 Video Generation", 100, "Completed"),
                   ("Watermark Removal (KLing)", 0, "Running"),
                   ("Watermark Removal (KLing)", 100, "Completed"),
                   ("Video Enhancement", 0, "Running"),
                   ("Video Enhancement", 100, "Completed"),
                   ("YouTube Upload", 0, "Running"),
                   ("YouTube Upload", 100, "Completed")],
        calls := cs1 ++ cs2 ++ cs3 ++ cs4,
        upload_tracker := dictInsert env.upload_tracker env.today
          { uploaded := true, video_id := vid, video_title := m.title,
            day_of_week := env.weekday, timestamp := env.timestamp },
        error := none } := by
  have hs : ∀ i, should_stop_at env i = false := by
    intro i; simp [should_stop_at, h0]
  simp [run_workflow, h1, h2, h3, h4, hs, mark_uploaded]

/-- Every run falls in one of three shapes: full success (tracker updated by
mark_uploaded), a stop-request return (false, tracker unchanged, no error
logged), or an exception return (false, tracker unchanged, error logged and
the (Error, 0, Error) event emitted). -/
theorem run_workflow_shape (env : Env) :
    ((run_workflow env).success = true ∧ (run_workflow env).error = none ∧
      ∃ vid title, (run_workflow env).upload_tracker =
        mark_uploaded env.upload_tracker env.today env.weekday env.timestamp
          vid title) ∨
    ((run_workflow env).success = false ∧
      (run_workflow env).upload_tracker = env.upload_tracker ∧
      ((run_workflow env).error = none ∨
       (∃ e, (run_workflow env).error = some e ∧
         ("Error", 0, "Error") ∈ (run_workflow env).events))) := by
  rcases h1 : step_ai_planning env with ⟨r1, cs1⟩
  rcases r1 with e1 | pm
  · right
    simp [run_workflow, h1]
  · obtain ⟨p, m⟩ := pm
    cases hs1 : should_stop_at env 1 with
    | true => right; simp [run_workflow, h1, hs1]
    | false =>
      rcases h2 : step_video_generation env p with ⟨r2, cs2⟩
      rcases r2 with e2 | g
      · right; simp [run_workflow, h1, hs1, h2]
      · cases hs2 : should_stop_at env 2 with
        | true => right; simp [run_workflow, h1, hs1, h2, hs2]
        | false =>
          rcases h3 : step_watermark_removal env g with ⟨r3, cs3⟩
          rcases r3 with e3 | c
          · right; simp [run_workflow, h1, hs1, h2, hs2, h3]
          · cases hs3 : should_stop_at env 3 with
            | true => right; simp [run_workflow, h1, hs1, h2, hs2, h3, hs3]
            | false =>
              cases hs4 : should_stop_at env 4 with
              | true =>
                right; simp [run_workflow, h1, hs1, h2, hs2, h3, hs3, hs4]
              | false =>
                rcases h4 : step_youtube_upload env c m with ⟨r4, cs4⟩
                rcases r4 with e4 | vid
                · right
                  simp [run_workflow, h1, hs1, h2, hs2, h3, hs3, hs4, h4]
                · left
                  refine ⟨?_, ?_, vid, m.title, ?_⟩ <;>
                    simp [run_workflow, h1, hs1, h2, hs2, h3, hs3, hs4, h4]

/-- The upcoming-days scan never produces a today description. -/
theorem find_upcoming_ne_todayAt (schedule : List (String × String))
    (idx : Nat) (l : List Nat) (w t : String) :
    find_upcoming schedule idx l ≠ NextRun.todayAt w t := by
  induction l with
  | nil => simp [find_upcoming]
  | cons i rest ih =>
    simp only [find_upcoming]
    rcases hl : dictLookup schedule (days_order.getD ((idx + i) % 7) "") with _ | s
    · simpa only [hl] using ih
    · simp only [hl]
      simp

/-! Claim theorems. -/

/-- Claim C1: if all four pipeline stages (plan, generate, post-process,
upload) succeed and no stop is requested, run_workflow returns true, exactly
one PublishRecord is written — the one for today, with uploaded = true —
every other date of the ledger is unchanged, and the written videoId is
exactly the id the upload adapter returned. -/
theorem run_workflow_full_success (env : Env) (p : String) (m : Metadata)
    (g c vid : String) (cs1 cs2 cs3 cs4 : List String)
    (h0 : env.stop_from = none)
    (h1 : step_ai_planning env = (Except.ok (p, m), cs1))
    (h2 : step_video_generation env p = (Except.ok g, cs2))
    (h3 : step_watermark_removal env g = (Except.ok c, cs3))
    (h4 : step_youtube_upload env c m = (Except.ok vid, cs4)) :
    (run_workflow env).success = true ∧
    (run_workflow env).upload_tracker =
      dictInsert env.upload_tracker env.today
        { uploaded := true, video_id := vid, video_title := m.title,
          day_of_week := env.weekday, timestamp := env.timestamp } ∧
    dictLookup (run_workflow env).upload_tracker env.today =
      some { uploaded := true, video_id := vid, video_title := m.title,
             day_of_week := env.weekday, timestamp := env.timestamp } ∧
    env.upload_video c m (env.upload_destination = "youtube_shorts") =
      Except.ok vid ∧
    (∀ d, d ≠ env.today →
      dictLookup (run_workflow env).upload_tracker d =
        dictLookup env.upload_tracker d) := by
  have hr := run_workflow_success_eq env p m g c vid cs1 cs2 cs3 cs4 h0 h1 h2 h3 h4
  refine ⟨?_, ?_, ?_, ?_, ?_⟩
  · rw [hr]
  · rw [hr]
  · rw [hr]
    exact dictLookup_insert_self _ _ _
  · exact step_youtube_upload_adapter_id env c m vid cs4 h4
  · intro d hd
    rw [hr]
    exact dictLookup_insert_ne _ _ _ _ hd

/-- Witness for C1 at the concrete all-success environment envOk. -/
theorem run_workflow_full_success_witness :
    (run_workflow envOk).success = true ∧
    dictLookup (run_workflow envOk).upload_tracker "2025-01-06" =
      some { uploaded := true, video_id := "yt-video-id-123",
             video_title := "Sample Title", day_of_week := "Monday",
             timestamp := "2025-01-06T09:00:12" } := by
  have h := run_workflow_full_success envOk "a scenic prompt" sampleMeta
    "temp/generated_video.mp4" "output/cleaned_video_1.mp4" "yt-video-id-123"
    ["generate_video_prompt", "generate_video_metadata"]
    ["verify_api_access", "generate_video"] ["remove_watermark"] ["upload_video"]
    rfl rfl rfl rfl rfl
  exact ⟨h.1, h.2.2.1⟩

/-- Claim C2: when the generation stage produces a zero-byte or missing
video file, run_workflow returns false and writes no PublishRecord; and on
any failed run whatsoever the ledger is left unchanged. -/
theorem run_workflow_zero_byte_no_record :
    (∀ env p m cs1 g, env.stop_from = none →
      step_ai_planning env = (Except.ok (p, m), cs1) →
      env.openai_api_key ≠ "" → env.verify_api_access = true →
      env.generate_video p env.video_duration env.video_resolution =
        Except.ok g →
      (env.file_size g = some 0 ∨ env.file_size g = none) →
      (run_workflow env).success = false ∧
      (run_workflow env).upload_tracker = env.upload_tracker) ∧
    (∀ env, (run_workflow env).success = false →
      (run_workflow env).upload_tracker = env.upload_tracker) := by
  constructor
  · intro env p m cs1 g h0 h1 hk ha hg hz
    have hverify : verify_video_file env g = false := by
      rcases hz with hz | hz <;> simp [verify_video_file, hz]
    have h2 : step_video_generation env p =
        (Except.error
          "Video verification failed. The generated file is missing or invalid.",
         ["verify_api_access", "generate_video"]) := by
      simp [step_video_generation, hk, ha, hg, hverify]
    have hs1 : should_stop_at env 1 = false := by simp [should_stop_at, h0]
    constructor <;> simp [run_workflow, h1, hs1, h2]
  · intro env hfail
    rcases run_workflow_shape env with ⟨hs, -, -⟩ | ⟨-, ht, -⟩
    · rw [hs] at hfail
      exact absurd hfail (by simp)
    · exact ht

/-- Witness for C2 at envZeroByte, where the generated file has size 0. -/
theorem run_workflow_zero_byte_no_record_witness :
    (run_workflow envZeroByte).success = false ∧
    (run_workflow envZeroByte).upload_tracker = envZeroByte.upload_tracker :=
  run_workflow_zero_byte_no_record.1 envZeroByte "a scenic prompt" sampleMeta
    ["generate_video_prompt", "generate_video_metadata"]
    "temp/generated_video.mp4" rfl rfl (by decide) rfl rfl (Or.inl rfl)

/-- Claim C3: when the stop flag becomes observable at the check between
stage 2 (generation) and stage 3 (post-processing), run_workflow returns
false, makes only the stage-1 and stage-2 adapter calls (so the
post-processing and upload adapters are never invoked), leaves the ledger
unchanged, logs no error, and emits no Error progress status at all. -/
theorem run_workflow_stop_after_generation (env : Env) (p g : String)
    (m : Metadata) (cs1 cs2 : List String)
    (hstop : env.stop_from = some 2)
    (h1 : step_ai_planning env = (Except.ok (p, m), cs1))
    (h2 : step_video_generation env p = (Except.ok g, cs2)) :
    (run_workflow env).success = false ∧
    (run_workflow env).calls = cs1 ++ cs2 ∧
    (run_workflow env).upload_tracker = env.upload_tracker ∧
    (run_workflow env).error = none ∧
    (run_workflow env).events =
      [("AI Agent Planning", 0, "Running"),
       ("AI Agent Planning", 100, "Completed"),
       ("Sora 2 Video Generation", 0, "Running"),
       ("Sora 2 Video Generation", 100, "Completed")] ∧
    (∀ s q, ¬ (s, q, "Error") ∈ (run_workflow env).events) := by
  have hs1 : should_stop_at env 1 = false := by simp [should_stop_at, hstop]
  have hs2 : should_stop_at env 2 = true := by simp [should_stop_at, hstop]
  have hr : run_workflow env =
      { success := false,
        events := [("AI Agent Planning", 0, "Running"),
                   ("AI Agent Planning", 100, "Completed"),
                   ("Sora 2 Video Generation", 0, "Running"),
                   ("Sora 2 Video Generation", 100, "Completed")],
        calls := cs1 ++ cs2, upload_tracker := env.upload_tracker,
        error := none } := by
    simp [run_workflow, h1, h2, hs1, hs2]
  refine ⟨by rw [hr], by rw [hr], by rw [hr], by rw [hr], by rw [hr], ?_⟩
  intro s q hq
  rw [hr] at hq
  simp at hq

/-- Witness for C3 at envStop2 (stop observable at the second boundary). -/
theorem run_workflow_stop_after_generation_witness :
    (run_workflow envStop2).success = false ∧
    (run_workflow envStop2).calls =
      ["generate_video_prompt", "generate_video_metadata"] ++
      ["verify_api_access", "generate_video"] := by
  have h := run_workflow_stop_after_generation envStop2 "a scenic prompt"
    "temp/generated_video.mp4" sampleMeta
    ["generate_video_prompt", "generate_video_metadata"]
    ["verify_api_access", "generate_video"] rfl rfl rfl
  exact ⟨h.1, h.2.1⟩

/-- Claim C4: after a successful run, the ledger guard has_uploaded_today is
true for today with the matching weekday, so a subsequent scheduled trigger
on the same date skips run_workflow entirely. -/
theorem scheduled_trigger_skips_after_success (env : Env) (p : String)
    (m : Metadata) (g c vid : String) (cs1 cs2 cs3 cs4 : List String)
    (h0 : env.stop_from = none)
    (h1 : step_ai_planning env = (Except.ok (p, m), cs1))
    (h2 : step_video_generation env p = (Except.ok g, cs2))
    (h3 : step_watermark_removal env g = (Except.ok c, cs3))
    (h4 : step_youtube_upload env c m = (Except.ok vid, cs4)) :
    has_uploaded_today (run_workflow env).upload_tracker env.today env.weekday
      env.weekday = true ∧
    scheduled_workflow_execution
      { env with upload_tracker := (run_workflow env).upload_tracker }
      env.weekday = TriggerOutcome.skipped := by
  have hr := run_workflow_success_eq env p m g c vid cs1 cs2 cs3 cs4 h0 h1 h2 h3 h4
  have hlook : dictLookup (run_workflow env).upload_tracker env.today =
      some { uploaded := true, video_id := vid, video_title := m.title,
             day_of_week := env.weekday, timestamp := env.timestamp } := by
    rw [hr]
    exact dictLookup_insert_self _ _ _
  have hhas : has_uploaded_today (run_workflow env).upload_tracker env.today
      env.weekday env.weekday = true := by
    simp [has_uploaded_today, hlook]
  exact ⟨hhas, by simp [scheduled_workflow_execution, hhas]⟩

/-- Witness for C4 at envOk: after the successful run, the trigger skips. -/
theorem scheduled_trigger_skips_after_success_witness :
    scheduled_workflow_execution
      { envOk with upload_tracker := (run_workflow envOk).upload_tracker }
      "Monday" = TriggerOutcome.skipped := by
  have h := scheduled_trigger_skips_after_success envOk "a scenic prompt"
    sampleMeta "temp/generated_video.mp4" "output/cleaned_video_1.mp4"
    "yt-video-id-123" ["generate_video_prompt", "generate_video_metadata"]
    ["verify_api_access", "generate_video"] ["remove_watermark"] ["upload_video"]
    rfl rfl rfl rfl rfl
  exact h.2

/-- Claim C5 counterexample: the claim asserts isTimeMatch(08:59, 09:00) is
true, but the source requires equal hours before applying the one-minute
tolerance, so it returns false. -/
theorem is_time_match_0859_0900_false :
    is_time_match "08:59" "09:00" = false := by decide

/-- Claim C5 amended: isTimeMatch is true for (09:00,09:00) and
(09:01,09:00), and false for (08:59,09:00), (09:02,09:00) and (10:00,09:00):
the tolerance window never crosses an hour boundary. -/
theorem is_time_match_examples_amended :
    is_time_match "09:00" "09:00" = true ∧
    is_time_match "09:01" "09:00" = true ∧
    is_time_match "08:59" "09:00" = false ∧
    is_time_match "09:02" "09:00" = false ∧
    is_time_match "10:00" "09:00" = false := by decide

/-- Claim C6: artifact verification accepts any existing non-empty file; a
file below 100 KB takes the warning branch but still passes; a missing or
zero-size file fails; and when the generated artifact fails verification the
run aborts with only the stage-1 and stage-2 calls made — no post-processing
and no upload. -/
theorem verify_video_file_spec :
    (∀ env path n, env.file_size path = some n → n ≠ 0 →
       verify_video_file env path = true) ∧
    (∀ env path n, env.file_size path = some n → 0 < n → n < 100 * 1024 →
       verify_video_warns env path = true ∧ verify_video_file env path = true) ∧
    (∀ env path, env.file_size path = none →
       verify_video_file env path = false) ∧
    (∀ env path, env.file_size path = some 0 →
       verify_video_file env path = false) ∧
    (∀ env p m cs1 g, env.stop_from = none →
       step_ai_planning env = (Except.ok (p, m), cs1) →
       env.openai_api_key ≠ "" → env.verify_api_access = true →
       env.generate_video p env.video_duration env.video_resolution =
         Except.ok g →
       verify_video_file env g = false →
       (run_workflow env).success = false ∧
       (run_workflow env).calls = cs1 ++ ["verify_api_access", "generate_video"]) := by
  refine ⟨?_, ?_, ?_, ?_, ?_⟩
  · intro env path n hn hnz
    simp [verify_video_file, hn, hnz]
  · intro env path n hn hpos hlt
    constructor
    · simp [verify_video_warns, hn, ne_of_gt hpos, hlt]
    · simp [verify_video_file, hn, ne_of_gt hpos]
  · intro env path h
    simp [verify_video_file, h]
  · intro env path h
    simp [verify_video_file, h]
  · intro env p m cs1 g h0 h1 hk ha hg hverify
    have h2 : step_video_generation env p =
        (Except.error
          "Video verification failed. The generated file is missing or invalid.",
         ["verify_api_access", "generate_video"]) := by
      simp [step_video_generation, hk, ha, hg, hverify]
    have hs1 : should_stop_at env 1 = false := by simp [should_stop_at, h0]
    constructor <;> simp [run_workflow, h1, hs1, h2]

/-- Witness for C6: a 200000-byte file passes, a 0-byte file fails, and in
the zero-byte environment the run stops after the generation calls. -/
theorem verify_video_file_spec_witness :
    verify_video_file envOk "temp/generated_video.mp4" = true ∧
    verify_video_file envZeroByte "temp/generated_video.mp4" = false ∧
    (run_workflow envZeroByte).calls =
      ["generate_video_prompt", "generate_video_metadata"] ++
      ["verify_api_access", "generate_video"] := by
  refine ⟨verify_video_file_spec.1 envOk _ 200000 rfl (by decide),
          verify_video_file_spec.2.2.2.1 envZeroByte _ rfl, ?_⟩
  exact (verify_video_file_spec.2.2.2.2 envZeroByte "a scenic prompt"
    sampleMeta ["generate_video_prompt", "generate_video_metadata"]
    "temp/generated_video.mp4" rfl rfl (by decide) rfl rfl rfl).2

/-- Claim C7 counterexample: at envNoGemini the planning stage raises and an
error is logged, but no Error-status event carries the executing stage name
AI Agent Planning: the handler labels its single Error event with the fixed
string Error instead of the stage name. -/
theorem run_workflow_error_not_stage_labelled :
    (run_workflow envNoGemini).error =
      some "Workflow failed: Gemini API key not configured" ∧
    ¬ (∃ q, ("AI Agent Planning", q, "Error") ∈
        (run_workflow envNoGemini).events) := by
  constructor
  · decide
  · rintro ⟨q, hq⟩
    have hev : (run_workflow envNoGemini).events =
        [("AI Agent Planning", 0, "Running"), ("Error", 0, "Error")] := by decide
    rw [hev] at hq
    simp at hq

/-- Claim C7 amended: whenever a stage raises, the error is logged, run
returns false with the ledger unchanged, and an Error status is emitted
through the progress callback under the fixed step label Error (not under
the name of the stage that was executing). -/
theorem run_workflow_exception_fixed_error_label (env : Env) (e : String)
    (h : (run_workflow env).error = some e) :
    (run_workflow env).success = false ∧
    ("Error", 0, "Error") ∈ (run_workflow env).events ∧
    (run_workflow env).upload_tracker = env.upload_tracker := by
  rcases run_workflow_shape env with ⟨-, he, -⟩ | ⟨hs, ht, hrest⟩
  · rw [he] at h
    exact absurd h (by simp)
  · rcases hrest with he | ⟨e', he', hmem⟩
    · rw [he] at h
      exact absurd h (by simp)
    · exact ⟨hs, hmem, ht⟩

/-- Witness for the amended C7 at envNoGemini. -/
theorem run_workflow_exception_fixed_error_label_witness :
    (run_workflow envNoGemini).success = false ∧
    ("Error", 0, "Error") ∈ (run_workflow envNoGemini).events ∧
    (run_workflow envNoGemini).upload_tracker = envNoGemini.upload_tracker :=
  run_workflow_exception_fixed_error_label envNoGemini
    "Workflow failed: Gemini API key not configured" (by decide)

/-- Claim C8: for every weekday with no schedule entry, get_next_scheduled_run
never reports that weekday as today. -/
theorem get_next_scheduled_run_today_requires_entry
    (schedule : List (String × String)) (idx ch cm : Nat) (w : String)
    (hw : dictLookup schedule w = none) (t : String) :
    get_next_scheduled_run schedule idx ch cm ≠ NextRun.todayAt w t := by
  intro heq
  unfold get_next_scheduled_run at heq
  by_cases hemp : schedule.isEmpty
  · simp [hemp] at heq
  · simp only [hemp] at heq
    rcases hl : dictLookup schedule (days_order.getD idx "") with _ | str
    · simp only [hl] at heq
      exact absurd heq (find_upcoming_ne_todayAt _ _ _ _ _)
    · simp only [hl] at heq
      rcases hp : parse_time str with _ | ⟨sh, sm⟩
      · simp only [hp] at heq
        exact absurd heq (find_upcoming_ne_todayAt _ _ _ _ _)
      · simp only [hp] at heq
        cases hlt : time_lt ch cm sh sm
        · simp only [hlt, Bool.false_eq_true, if_false] at heq
          exact absurd heq (find_upcoming_ne_todayAt _ _ _ _ _)
        · simp only [hlt, eq_self_iff_true, if_true] at heq
          injection heq with hw' ht'
          rw [hw'] at hl
          exact absurd (hl.symm.trans hw) (by simp)

/-- Witness for C8: with only Monday scheduled, Friday is never today. -/
theorem get_next_scheduled_run_today_requires_entry_witness :
    get_next_scheduled_run [("Monday", "09:00")] 2 8 0 ≠
      NextRun.todayAt "Friday" "09:00" :=
  get_next_scheduled_run_today_requires_entry [("Monday", "09:00")] 2 8 0
    "Friday" (by decide) "09:00"

/-- Claim C9: get_upload_history returns the whole tracker unchanged — for a
tracker holding two dated records and limit 1 it returns both records, in
insertion (oldest-first) order, ignoring the limit. -/
theorem get_upload_history_ignores_days :
    get_upload_history twoDayTracker 1 = twoDayTracker ∧
    (get_upload_history twoDayTracker 1).length = 2 := ⟨rfl, rfl⟩

/-- Claim C10: is_time_match always returns a boolean, and whenever the
embedded try-block body raises (IndexError or ValueError on malformed
input), the except handler turns the result into false. -/
theorem is_time_match_never_raises :
    ∀ current scheduled : String,
      (is_time_match current scheduled = true ∨
       is_time_match current scheduled = false) ∧
      (∀ e, is_time_match_body current scheduled = Except.error e →
        is_time_match current scheduled = false) := by
  intro c s
  refine ⟨?_, ?_⟩
  · cases h : is_time_match c s
    · exact Or.inr rfl
    · exact Or.inl rfl
  · intro e he
    simp [is_time_match, he]

/-- Witness for C10 at a malformed time string. -/
theorem is_time_match_never_raises_witness :
    is_time_match "banana" "09:00" = false :=
  (is_time_match_never_raises "banana" "09:00").2
    "ValueError: invalid literal for int" (by rfl)

end Sora2Workflow
